import Mathlib

/-!
# Threshold-sweep evaluation of classifier scores

Shallow embedding of the metric computation inside `plot_interactive_cut`
(`Tutorial_ML_AI4Physics_training_interactive.ipynb`): given per-event
classifier scores for true-signal and true-background events, parallel mass
arrays for the same events, and a decision threshold, the code computes

* `signal_pass = signal_probs > threshold` (elementwise boolean mask),
* `mass_signal_cut = mass_signal[signal_pass]` (numpy boolean-mask indexing),
* `signal_efficiency = len(mass_signal_cut) / len(mass_signal)` when
  `len(mass_signal) > 0`, else `0`,
* `background_rejection = 1 - len(mass_background_cut) / len(mass_background)`
  when `len(mass_background) > 0`, else `0`,
* `sensitivity = signal_efficiency / sqrt(len(mass_background_cut) + 1e-10)`.

Scores and masses are embedded as lists of rationals; the sensitivity, which
involves a square root, lives in the reals.
-/

namespace MLTutorial

/-- Numpy boolean-mask indexing `xs[mask]` for parallel arrays: keep the
entries of `xs` whose mask entry is `true`. -/
def maskSelect (xs : List ℚ) (mask : List Bool) : List ℚ :=
  (xs.zip mask).filterMap fun p => if p.2 then some p.1 else none

/-- The elementwise comparison `probs > threshold` of the source, as a boolean
mask (strict `>`). -/
def gtMask (probs : List ℚ) (threshold : ℚ) : List Bool :=
  probs.map fun s => decide (threshold < s)

/-- The record of metrics computed by `plot_interactive_cut`. -/
structure EvaluationResult where
  signal_pass_count : ℕ
  background_pass_count : ℕ
  signal_efficiency : ℚ
  background_rejection : ℚ
  sensitivity : ℝ

/-- The metric computation of `plot_interactive_cut` (the plotting around it
is out of scope).  `signal_probs`/`mass_signal` and
`background_probs`/`mass_background` are the parallel per-event arrays of the
notebook. -/
noncomputable def plot_interactive_cut (signal_probs mass_signal background_probs mass_background : List ℚ) (threshold : ℚ) : EvaluationResult :=
  { signal_pass_count := (maskSelect mass_signal (gtMask signal_probs threshold)).length
    background_pass_count := (maskSelect mass_background (gtMask background_probs threshold)).length
    signal_efficiency :=
      if 0 < mass_signal.length then
        ((maskSelect mass_signal (gtMask signal_probs threshold)).length : ℚ) / mass_signal.length
      else 0
    background_rejection :=
      if 0 < mass_background.length then
        1 - ((maskSelect mass_background (gtMask background_probs threshold)).length : ℚ) / mass_background.length
      else 0
    sensitivity :=
      ((if 0 < mass_signal.length then
          ((maskSelect mass_signal (gtMask signal_probs threshold)).length : ℚ) / mass_signal.length
        else 0 : ℚ) : ℝ) /
        Real.sqrt (((maskSelect mass_background (gtMask background_probs threshold)).length : ℝ) + 1e-10) }

/-- Count of scores strictly greater than the threshold, the spec's
`signal_pass_count` / `background_pass_count` formula. -/
def specPassCount (scores : List ℚ) (threshold : ℚ) : ℕ :=
  (scores.filter fun s => decide (threshold < s)).length

/-- The spec's `signal_efficiency` formula. -/
def specSignalEfficiency (signalScores : List ℚ) (threshold : ℚ) : ℚ :=
  if signalScores.length ≠ 0 then
    (specPassCount signalScores threshold : ℚ) / signalScores.length
  else 0

/-- The spec's `background_rejection` formula. -/
def specBackgroundRejection (backgroundScores : List ℚ) (threshold : ℚ) : ℚ :=
  if backgroundScores.length ≠ 0 then
    1 - (specPassCount backgroundScores threshold : ℚ) / backgroundScores.length
  else 0

/-- The spec's `sensitivity` formula. -/
noncomputable def specSensitivity (signalScores backgroundScores : List ℚ) (threshold : ℚ) : ℝ :=
  (specSignalEfficiency signalScores threshold : ℝ) /
    Real.sqrt ((specPassCount backgroundScores threshold : ℝ) + 1e-10)

/-- When the mask comes from an equal-length score array, boolean-mask
indexing keeps exactly as many entries as there are scores above the
threshold. -/
theorem maskSelect_gtMask_length (probs : List ℚ) (t : ℚ) :
    ∀ mass : List ℚ, mass.length = probs.length →
      (maskSelect mass (gtMask probs t)).length = specPassCount probs t := by
  induction probs with
  | nil =>
    intro mass h
    have : mass = [] := List.length_eq_zero.mp h
    subst this
    rfl
  | cons p ps ih =>
    intro mass h
    cases mass with
    | nil => simp at h
    | cons m ms =>
      have hms : ms.length = ps.length := by simpa using h
      by_cases hp : t < p
      · simp [maskSelect, gtMask, specPassCount, List.filter, hp] at *
        simpa [maskSelect, gtMask, specPassCount] using ih ms hms
      · simp [maskSelect, gtMask, specPassCount, List.filter, hp] at *
        simpa [maskSelect, gtMask, specPassCount] using ih ms hms

/-- C1: with parallel (equal-length) score and mass arrays, the code's
metrics are exactly the spec's formulas: pass counts are counts of scores
strictly above the threshold, efficiency is `pass / len` (0 when empty),
rejection is `1 - pass / len` (0 when empty), and sensitivity is
`efficiency / sqrt(background_pass_count + 1e-10)`. -/
theorem evaluation_matches_spec_formulas (signal_probs mass_signal background_probs mass_background : List ℚ) (threshold : ℚ)
    (hs : mass_signal.length = signal_probs.length)
    (hb : mass_background.length = background_probs.length) :
    (plot_interactive_cut signal_probs mass_signal background_probs mass_background threshold).signal_pass_count = specPassCount signal_probs threshold ∧
    (plot_interactive_cut signal_probs mass_signal background_probs mass_background threshold).background_pass_count = specPassCount background_probs threshold ∧
    (plot_interactive_cut signal_probs mass_signal background_probs mass_background threshold).signal_efficiency = specSignalEfficiency signal_probs threshold ∧
    (plot_interactive_cut signal_probs mass_signal background_probs mass_background threshold).background_rejection = specBackgroundRejection background_probs threshold ∧
    (plot_interactive_cut signal_probs mass_signal background_probs mass_background threshold).sensitivity = specSensitivity signal_probs background_probs threshold := by
  have hsc := maskSelect_gtMask_length signal_probs threshold mass_signal hs
  have hbc := maskSelect_gtMask_length background_probs threshold mass_background hb
  refine ⟨hsc, hbc, ?_, ?_, ?_⟩
  · simp [plot_interactive_cut, specSignalEfficiency, hsc, hs, Nat.pos_iff_ne_zero]
  · simp [plot_interactive_cut, specBackgroundRejection, hbc, hb, Nat.pos_iff_ne_zero]
  · simp [plot_interactive_cut, specSensitivity, specSignalEfficiency, hsc, hbc, hs,
      Nat.pos_iff_ne_zero]

/-- Witness for C1 at a concrete input. -/
theorem evaluation_matches_spec_formulas_witness :
    (plot_interactive_cut [0.9, 0.8, 0.4, 0.2] [5, 5, 5, 5] [0.7, 0.3, 0.1, 0.05] [5, 5, 5, 5] 0.5).signal_pass_count = specPassCount [0.9, 0.8, 0.4, 0.2] 0.5 ∧
    (plot_interactive_cut [0.9, 0.8, 0.4, 0.2] [5, 5, 5, 5] [0.7, 0.3, 0.1, 0.05] [5, 5, 5, 5] 0.5).background_pass_count = specPassCount [0.7, 0.3, 0.1, 0.05] 0.5 ∧
    (plot_interactive_cut [0.9, 0.8, 0.4, 0.2] [5, 5, 5, 5] [0.7, 0.3, 0.1, 0.05] [5, 5, 5, 5] 0.5).signal_efficiency = specSignalEfficiency [0.9, 0.8, 0.4, 0.2] 0.5 ∧
    (plot_interactive_cut [0.9, 0.8, 0.4, 0.2] [5, 5, 5, 5] [0.7, 0.3, 0.1, 0.05] [5, 5, 5, 5] 0.5).background_rejection = specBackgroundRejection [0.7, 0.3, 0.1, 0.05] 0.5 ∧
    (plot_interactive_cut [0.9, 0.8, 0.4, 0.2] [5, 5, 5, 5] [0.7, 0.3, 0.1, 0.05] [5, 5, 5, 5] 0.5).sensitivity = specSensitivity [0.9, 0.8, 0.4, 0.2] [0.7, 0.3, 0.1, 0.05] 0.5 :=
  evaluation_matches_spec_formulas [0.9, 0.8, 0.4, 0.2] [5, 5, 5, 5] [0.7, 0.3, 0.1, 0.05] [5, 5, 5, 5] 0.5 (by decide) (by decide)

/-- C2: on signal scores `[0.9, 0.8, 0.4, 0.2]` and background scores
`[0.7, 0.3, 0.1, 0.05]`, threshold 0.5 gives pass counts 2 and 1, efficiency
0.5, rejection 0.75 and sensitivity `0.5 / sqrt(1 + 1e-10)`; threshold 0
gives efficiency 1 and rejection 0; threshold 1 gives efficiency 0 and
rejection 1. -/
theorem evaluation_example :
    (plot_interactive_cut [0.9, 0.8, 0.4, 0.2] [5, 5, 5, 5] [0.7, 0.3, 0.1, 0.05] [5, 5, 5, 5] 0.5).signal_pass_count = 2 ∧
    (plot_interactive_cut [0.9, 0.8, 0.4, 0.2] [5, 5, 5, 5] [0.7, 0.3, 0.1, 0.05] [5, 5, 5, 5] 0.5).signal_efficiency = 0.5 ∧
    (plot_interactive_cut [0.9, 0.8, 0.4, 0.2] [5, 5, 5, 5] [0.7, 0.3, 0.1, 0.05] [5, 5, 5, 5] 0.5).background_pass_count = 1 ∧
    (plot_interactive_cut [0.9, 0.8, 0.4, 0.2] [5, 5, 5, 5] [0.7, 0.3, 0.1, 0.05] [5, 5, 5, 5] 0.5).background_rejection = 0.75 ∧
    (plot_interactive_cut [0.9, 0.8, 0.4, 0.2] [5, 5, 5, 5] [0.7, 0.3, 0.1, 0.05] [5, 5, 5, 5] 0.5).sensitivity = (0.5 : ℝ) / Real.sqrt (1 + 1e-10) ∧
    (plot_interactive_cut [0.9, 0.8, 0.4, 0.2] [5, 5, 5, 5] [0.7, 0.3, 0.1, 0.05] [5, 5, 5, 5] 0).signal_efficiency = 1 ∧
    (plot_interactive_cut [0.9, 0.8, 0.4, 0.2] [5, 5, 5, 5] [0.7, 0.3, 0.1, 0.05] [5, 5, 5, 5] 0).background_rejection = 0 ∧
    (plot_interactive_cut [0.9, 0.8, 0.4, 0.2] [5, 5, 5, 5] [0.7, 0.3, 0.1, 0.05] [5, 5, 5, 5] 1).signal_efficiency = 0 ∧
    (plot_interactive_cut [0.9, 0.8, 0.4, 0.2] [5, 5, 5, 5] [0.7, 0.3, 0.1, 0.05] [5, 5, 5, 5] 1).background_rejection = 1 := by
  refine ⟨?_, ?_, ?_, ?_, ?_, ?_, ?_, ?_, ?_⟩ <;>
    norm_num [plot_interactive_cut, maskSelect, gtMask, List.filterMap_cons]

/-- Boolean-mask indexing never returns more entries than the indexed array
has. -/
theorem maskSelect_length_le (xs : List ℚ) (mask : List Bool) :
    (maskSelect xs mask).length ≤ xs.length :=
  le_trans (List.length_filterMap_le _ _)
    (by rw [List.length_zip xs mask]; exact min_le_left _ _)

/-- Unfolding lemma for `maskSelect` on cons cells. -/
theorem maskSelect_cons (x : ℚ) (xs : List ℚ) (b : Bool) (bs : List Bool) :
    maskSelect (x :: xs) (b :: bs) =
      if b then x :: maskSelect xs bs else maskSelect xs bs := by
  cases b <;> simp [maskSelect]

/-- Raising the threshold can only shrink the number of selected events. -/
theorem maskSelect_gtMask_length_antitone (probs : List ℚ) (t1 t2 : ℚ) (h : t1 ≤ t2) :
    ∀ mass : List ℚ,
      (maskSelect mass (gtMask probs t2)).length ≤ (maskSelect mass (gtMask probs t1)).length := by
  induction probs with
  | nil => intro mass; simp [gtMask, maskSelect]
  | cons p ps ih =>
    intro mass
    cases mass with
    | nil => simp [maskSelect]
    | cons m ms =>
      have hmask : ∀ t : ℚ, gtMask (p :: ps) t = decide (t < p) :: gtMask ps t := by
        intro t; simp [gtMask]
      rw [hmask, hmask, maskSelect_cons, maskSelect_cons]
      by_cases h2 : t2 < p
      · have h1 : t1 < p := lt_of_le_of_lt h h2
        rw [decide_eq_true h1, decide_eq_true h2]
        simp only [if_true, List.length_cons]
        exact Nat.succ_le_succ (ih ms)
      · rw [decide_eq_false h2]
        simp only [Bool.false_eq_true, if_false]
        by_cases h1 : t1 < p
        · rw [decide_eq_true h1]
          simp only [if_true, List.length_cons]
          exact le_trans (ih ms) (Nat.le_succ _)
        · rw [decide_eq_false h1]
          simp only [Bool.false_eq_true, if_false]
          exact ih ms

/-- C3: with an empty signal ScoreSet the efficiency is 0, and with an empty
background ScoreSet the rejection is 0; the evaluation is a total function,
so both cases return normally (no division-by-zero is possible in the
embedding). -/
theorem evaluation_empty_scoreset (signal_probs mass_signal background_probs mass_background : List ℚ) (threshold : ℚ) :
    (plot_interactive_cut [] [] background_probs mass_background threshold).signal_efficiency = 0 ∧
    (plot_interactive_cut signal_probs mass_signal [] [] threshold).background_rejection = 0 := by
  constructor <;> simp [plot_interactive_cut]

/-- C4: for arbitrary score and mass arrays (any lengths, including empty)
and an arbitrary threshold, efficiency and rejection both lie in `[0, 1]`. -/
theorem evaluation_metrics_in_unit_interval (signal_probs mass_signal background_probs mass_background : List ℚ) (threshold : ℚ) :
    0 ≤ (plot_interactive_cut signal_probs mass_signal background_probs mass_background threshold).signal_efficiency ∧
    (plot_interactive_cut signal_probs mass_signal background_probs mass_background threshold).signal_efficiency ≤ 1 ∧
    0 ≤ (plot_interactive_cut signal_probs mass_signal background_probs mass_background threshold).background_rejection ∧
    (plot_interactive_cut signal_probs mass_signal background_probs mass_background threshold).background_rejection ≤ 1 := by
  have hs := maskSelect_length_le mass_signal (gtMask signal_probs threshold)
  have hb := maskSelect_length_le mass_background (gtMask background_probs threshold)
  simp only [plot_interactive_cut]
  refine ⟨?_, ?_, ?_, ?_⟩
  · split
    · positivity
    · exact le_refl 0
  · split
    · rename_i hpos
      rw [div_le_one (by exact_mod_cast hpos)]
      exact_mod_cast hs
    · exact zero_le_one
  · split
    · rename_i hpos
      rw [sub_nonneg, div_le_one (by exact_mod_cast hpos)]
      exact_mod_cast hb
    · exact le_refl 0
  · split
    · rename_i hpos
      rw [sub_le_self_iff]
      positivity
    · exact zero_le_one

/-- C5: for a fixed pair of score sequences (with their mass arrays), the
signal efficiency is non-increasing in the threshold over `[0, 1]`. -/
theorem signal_efficiency_antitone (signal_probs mass_signal background_probs mass_background : List ℚ) (t1 t2 : ℚ)
    (ht0 : 0 ≤ t1) (ht1 : t2 ≤ 1) (h : t1 ≤ t2) :
    (plot_interactive_cut signal_probs mass_signal background_probs mass_background t2).signal_efficiency ≤
      (plot_interactive_cut signal_probs mass_signal background_probs mass_background t1).signal_efficiency := by
  have hcnt := maskSelect_gtMask_length_antitone signal_probs t1 t2 h mass_signal
  simp only [plot_interactive_cut]
  split
  · rename_i hpos
    have hpos' : (0 : ℚ) < mass_signal.length := by exact_mod_cast hpos
    exact (div_le_div_iff_of_pos_right hpos').mpr (by exact_mod_cast hcnt)
  · exact le_refl 0

/-- Witness for C5 at concrete thresholds 0.2 ≤ 0.8. -/
theorem signal_efficiency_antitone_witness :
    (0 : ℚ) ≤ 0.2 ∧ (0.8 : ℚ) ≤ 1 ∧ (0.2 : ℚ) ≤ 0.8 ∧
    (plot_interactive_cut [0.9, 0.8, 0.4, 0.2] [5, 5, 5, 5] [0.7, 0.3, 0.1, 0.05] [5, 5, 5, 5] 0.8).signal_efficiency ≤
      (plot_interactive_cut [0.9, 0.8, 0.4, 0.2] [5, 5, 5, 5] [0.7, 0.3, 0.1, 0.05] [5, 5, 5, 5] 0.2).signal_efficiency :=
  ⟨by norm_num, by norm_num, by norm_num,
    signal_efficiency_antitone [0.9, 0.8, 0.4, 0.2] [5, 5, 5, 5] [0.7, 0.3, 0.1, 0.05] [5, 5, 5, 5] 0.2 0.8
      (by norm_num) (by norm_num) (by norm_num)⟩

/-- When every score passes the threshold, the mask keeps the whole mass
array. -/
theorem maskSelect_gtMask_length_all (probs mass : List ℚ) (t : ℚ)
    (h : mass.length = probs.length) (hall : ∀ s ∈ probs, t < s) :
    (maskSelect mass (gtMask probs t)).length = mass.length := by
  rw [maskSelect_gtMask_length probs t mass h, specPassCount,
    List.filter_eq_self.mpr fun s hs => decide_eq_true (hall s hs), h]

/-- When no score passes the threshold, the mask keeps nothing. -/
theorem maskSelect_gtMask_length_none (probs mass : List ℚ) (t : ℚ)
    (h : mass.length = probs.length) (hnone : ∀ s ∈ probs, ¬ t < s) :
    (maskSelect mass (gtMask probs t)).length = 0 := by
  rw [maskSelect_gtMask_length probs t mass h, specPassCount,
    List.filter_eq_nil_iff.mpr fun s hs => by simpa using hnone s hs]
  rfl

/-- C6: for non-empty parallel arrays whose scores are strictly positive,
threshold 0 gives efficiency 1 and rejection 0; for scores at most 1,
threshold 1 gives efficiency 0 and rejection 1 (the comparison is strict). -/
theorem evaluation_extreme_thresholds (signal_probs mass_signal background_probs mass_background : List ℚ)
    (hs : mass_signal.length = signal_probs.length)
    (hb : mass_background.length = background_probs.length)
    (hsne : signal_probs ≠ []) (hbne : background_probs ≠ [])
    (hspos : ∀ s ∈ signal_probs, 0 < s) (hbpos : ∀ s ∈ background_probs, 0 < s)
    (hsle : ∀ s ∈ signal_probs, s ≤ 1) (hble : ∀ s ∈ background_probs, s ≤ 1) :
    (plot_interactive_cut signal_probs mass_signal background_probs mass_background 0).signal_efficiency = 1 ∧
    (plot_interactive_cut signal_probs mass_signal background_probs mass_background 0).background_rejection = 0 ∧
    (plot_interactive_cut signal_probs mass_signal background_probs mass_background 1).signal_efficiency = 0 ∧
    (plot_interactive_cut signal_probs mass_signal background_probs mass_background 1).background_rejection = 1 := by
  have hmslen : 0 < mass_signal.length := by
    rw [hs]; exact List.length_pos.mpr hsne
  have hmblen : 0 < mass_background.length := by
    rw [hb]; exact List.length_pos.mpr hbne
  have hmsq : ((mass_signal.length : ℚ)) ≠ 0 := by exact_mod_cast Nat.pos_iff_ne_zero.mp hmslen
  have hmbq : ((mass_background.length : ℚ)) ≠ 0 := by exact_mod_cast Nat.pos_iff_ne_zero.mp hmblen
  refine ⟨?_, ?_, ?_, ?_⟩
  · simp only [plot_interactive_cut, if_pos hmslen]
    rw [maskSelect_gtMask_length_all signal_probs mass_signal 0 hs hspos]
    exact div_self hmsq
  · simp only [plot_interactive_cut, if_pos hmblen]
    rw [maskSelect_gtMask_length_all background_probs mass_background 0 hb hbpos]
    rw [div_self hmbq]
    ring
  · simp only [plot_interactive_cut, if_pos hmslen]
    rw [maskSelect_gtMask_length_none signal_probs mass_signal 1 hs
      fun s hmem => not_lt.mpr (hsle s hmem)]
    simp
  · simp only [plot_interactive_cut, if_pos hmblen]
    rw [maskSelect_gtMask_length_none background_probs mass_background 1 hb
      fun s hmem => not_lt.mpr (hble s hmem)]
    simp

/-- Witness for C6 on the example arrays, whose scores all lie in (0, 1]. -/
theorem evaluation_extreme_thresholds_witness :
    (plot_interactive_cut [0.9, 0.8, 0.4, 0.2] [5, 5, 5, 5] [0.7, 0.3, 0.1, 0.05] [5, 5, 5, 5] 0).signal_efficiency = 1 ∧
    (plot_interactive_cut [0.9, 0.8, 0.4, 0.2] [5, 5, 5, 5] [0.7, 0.3, 0.1, 0.05] [5, 5, 5, 5] 0).background_rejection = 0 ∧
    (plot_interactive_cut [0.9, 0.8, 0.4, 0.2] [5, 5, 5, 5] [0.7, 0.3, 0.1, 0.05] [5, 5, 5, 5] 1).signal_efficiency = 0 ∧
    (plot_interactive_cut [0.9, 0.8, 0.4, 0.2] [5, 5, 5, 5] [0.7, 0.3, 0.1, 0.05] [5, 5, 5, 5] 1).background_rejection = 1 :=
  evaluation_extreme_thresholds [0.9, 0.8, 0.4, 0.2] [5, 5, 5, 5] [0.7, 0.3, 0.1, 0.05] [5, 5, 5, 5]
    (by decide) (by decide) (by decide) (by decide)
    (by intro s hmem; fin_cases hmem <;> norm_num)
    (by intro s hmem; fin_cases hmem <;> norm_num)
    (by intro s hmem; fin_cases hmem <;> norm_num)
    (by intro s hmem; fin_cases hmem <;> norm_num)

/-- C7: the evaluation is a pure function of its inputs — identical inputs
give identical results (the embedding takes immutable list values, matching
the source, which only reads its inputs). -/
theorem evaluation_deterministic (sp ms bp mb sp' ms' bp' mb' : List ℚ) (t t' : ℚ)
    (h1 : sp = sp') (h2 : ms = ms') (h3 : bp = bp') (h4 : mb = mb') (h5 : t = t') :
    (plot_interactive_cut sp ms bp mb t).signal_efficiency =
        (plot_interactive_cut sp' ms' bp' mb' t').signal_efficiency ∧
    (plot_interactive_cut sp ms bp mb t).background_rejection =
        (plot_interactive_cut sp' ms' bp' mb' t').background_rejection ∧
    (plot_interactive_cut sp ms bp mb t).sensitivity =
        (plot_interactive_cut sp' ms' bp' mb' t').sensitivity := by
  subst h1; subst h2; subst h3; subst h4; subst h5
  exact ⟨rfl, rfl, rfl⟩

/-- Witness for C7 on the example arrays. -/
theorem evaluation_deterministic_witness :
    (plot_interactive_cut [0.9, 0.2] [5, 5] [0.7] [5] 0.5).signal_efficiency =
        (plot_interactive_cut [0.9, 0.2] [5, 5] [0.7] [5] 0.5).signal_efficiency ∧
    (plot_interactive_cut [0.9, 0.2] [5, 5] [0.7] [5] 0.5).background_rejection =
        (plot_interactive_cut [0.9, 0.2] [5, 5] [0.7] [5] 0.5).background_rejection ∧
    (plot_interactive_cut [0.9, 0.2] [5, 5] [0.7] [5] 0.5).sensitivity =
        (plot_interactive_cut [0.9, 0.2] [5, 5] [0.7] [5] 0.5).sensitivity :=
  evaluation_deterministic [0.9, 0.2] [5, 5] [0.7] [5] [0.9, 0.2] [5, 5] [0.7] [5] 0.5 0.5
    rfl rfl rfl rfl rfl

/-- C8: out-of-range thresholds degrade gracefully when scores lie in
`[0, 1]` and the arrays are non-empty: a threshold above 1 gives efficiency 0
and rejection 1, a threshold below 0 gives efficiency 1 and rejection 0. -/
theorem evaluation_out_of_range_threshold (signal_probs mass_signal background_probs mass_background : List ℚ) (t : ℚ)
    (hs : mass_signal.length = signal_probs.length)
    (hb : mass_background.length = background_probs.length)
    (hsne : signal_probs ≠ []) (hbne : background_probs ≠ [])
    (hsr : ∀ s ∈ signal_probs, 0 ≤ s ∧ s ≤ 1)
    (hbr : ∀ s ∈ background_probs, 0 ≤ s ∧ s ≤ 1) :
    (1 < t →
      (plot_interactive_cut signal_probs mass_signal background_probs mass_background t).signal_efficiency = 0 ∧
      (plot_interactive_cut signal_probs mass_signal background_probs mass_background t).background_rejection = 1) ∧
    (t < 0 →
      (plot_interactive_cut signal_probs mass_signal background_probs mass_background t).signal_efficiency = 1 ∧
      (plot_interactive_cut signal_probs mass_signal background_probs mass_background t).background_rejection = 0) := by
  have hmslen : 0 < mass_signal.length := by
    rw [hs]; exact List.length_pos.mpr hsne
  have hmblen : 0 < mass_background.length := by
    rw [hb]; exact List.length_pos.mpr hbne
  have hmsq : ((mass_signal.length : ℚ)) ≠ 0 := by exact_mod_cast Nat.pos_iff_ne_zero.mp hmslen
  have hmbq : ((mass_background.length : ℚ)) ≠ 0 := by exact_mod_cast Nat.pos_iff_ne_zero.mp hmblen
  constructor
  · intro hgt
    constructor
    · simp only [plot_interactive_cut, if_pos hmslen]
      rw [maskSelect_gtMask_length_none signal_probs mass_signal t hs
        fun s hmem => not_lt.mpr ((hsr s hmem).2.trans hgt.le)]
      simp
    · simp only [plot_interactive_cut, if_pos hmblen]
      rw [maskSelect_gtMask_length_none background_probs mass_background t hb
        fun s hmem => not_lt.mpr ((hbr s hmem).2.trans hgt.le)]
      simp
  · intro hlt
    constructor
    · simp only [plot_interactive_cut, if_pos hmslen]
      rw [maskSelect_gtMask_length_all signal_probs mass_signal t hs
        fun s hmem => lt_of_lt_of_le hlt (hsr s hmem).1]
      exact div_self hmsq
    · simp only [plot_interactive_cut, if_pos hmblen]
      rw [maskSelect_gtMask_length_all background_probs mass_background t hb
        fun s hmem => lt_of_lt_of_le hlt (hbr s hmem).1]
      rw [div_self hmbq]
      ring

/-- Witness for C8 at thresholds 1.5 and -0.5. -/
theorem evaluation_out_of_range_threshold_witness :
    ((1 : ℚ) < 1.5 →
      (plot_interactive_cut [0.9, 0.8, 0.4, 0.2] [5, 5, 5, 5] [0.7, 0.3, 0.1, 0.05] [5, 5, 5, 5] 1.5).signal_efficiency = 0 ∧
      (plot_interactive_cut [0.9, 0.8, 0.4, 0.2] [5, 5, 5, 5] [0.7, 0.3, 0.1, 0.05] [5, 5, 5, 5] 1.5).background_rejection = 1) ∧
    ((1.5 : ℚ) < 0 →
      (plot_interactive_cut [0.9, 0.8, 0.4, 0.2] [5, 5, 5, 5] [0.7, 0.3, 0.1, 0.05] [5, 5, 5, 5] 1.5).signal_efficiency = 1 ∧
      (plot_interactive_cut [0.9, 0.8, 0.4, 0.2] [5, 5, 5, 5] [0.7, 0.3, 0.1, 0.05] [5, 5, 5, 5] 1.5).background_rejection = 0) :=
  evaluation_out_of_range_threshold [0.9, 0.8, 0.4, 0.2] [5, 5, 5, 5] [0.7, 0.3, 0.1, 0.05] [5, 5, 5, 5] 1.5
    (by decide) (by decide) (by decide) (by decide)
    (by intro s hmem; fin_cases hmem <;> norm_num)
    (by intro s hmem; fin_cases hmem <;> norm_num)

/-- C9: for a fixed non-empty background ScoreSet (with its parallel mass
array), the background rejection is non-decreasing in the threshold. -/
theorem background_rejection_monotone (signal_probs mass_signal background_probs mass_background : List ℚ) (t1 t2 : ℚ)
    (hb : mass_background.length = background_probs.length)
    (hbne : background_probs ≠ []) (h : t1 ≤ t2) :
    (plot_interactive_cut signal_probs mass_signal background_probs mass_background t1).background_rejection ≤
      (plot_interactive_cut signal_probs mass_signal background_probs mass_background t2).background_rejection := by
  have hcnt := maskSelect_gtMask_length_antitone background_probs t1 t2 h mass_background
  simp only [plot_interactive_cut]
  split
  · rename_i hpos
    have hpos' : (0 : ℚ) < mass_background.length := by exact_mod_cast hpos
    exact sub_le_sub_left ((div_le_div_iff_of_pos_right hpos').mpr (by exact_mod_cast hcnt)) 1
  · exact le_refl 0

/-- Witness for C9 at concrete thresholds 0.2 ≤ 0.8. -/
theorem background_rejection_monotone_witness :
    ([5, 5, 5, 5] : List ℚ).length = ([0.7, 0.3, 0.1, 0.05] : List ℚ).length ∧
    ([0.7, 0.3, 0.1, 0.05] : List ℚ) ≠ [] ∧ (0.2 : ℚ) ≤ 0.8 ∧
    (plot_interactive_cut [0.9, 0.8, 0.4, 0.2] [5, 5, 5, 5] [0.7, 0.3, 0.1, 0.05] [5, 5, 5, 5] 0.2).background_rejection ≤
      (plot_interactive_cut [0.9, 0.8, 0.4, 0.2] [5, 5, 5, 5] [0.7, 0.3, 0.1, 0.05] [5, 5, 5, 5] 0.8).background_rejection :=
  ⟨by decide, by decide, by norm_num,
    background_rejection_monotone [0.9, 0.8, 0.4, 0.2] [5, 5, 5, 5] [0.7, 0.3, 0.1, 0.05] [5, 5, 5, 5] 0.2 0.8
      (by decide) (by decide) (by norm_num)⟩

/-- In exact arithmetic, `sqrt(1e-10) = 1e-5`. -/
theorem sqrt_epsilon : Real.sqrt (((0 : ℕ) : ℝ) + 1e-10) = 1e-5 := by
  rw [show (((0 : ℕ) : ℝ) + 1e-10) = (1e-5) ^ 2 by norm_num, Real.sqrt_sq (by norm_num)]

/-- C10 counterexample: a signal set of 200000 scores with exactly one above
the threshold and no background event passing gives sensitivity 1/2, which
does not exceed 1. -/
theorem sensitivity_bound_counterexample :
    ((0.9 : ℚ) :: List.replicate 199999 0) ≠ [] ∧
    (0.9 : ℚ) ∈ ((0.9 : ℚ) :: List.replicate 199999 0) ∧ (0.5 : ℚ) < 0.9 ∧
    (plot_interactive_cut ((0.9 : ℚ) :: List.replicate 199999 0) (List.replicate 200000 5) [0.1] [5] 0.5).background_pass_count = 0 ∧
    ¬ (1 < (plot_interactive_cut ((0.9 : ℚ) :: List.replicate 199999 0) (List.replicate 200000 5) [0.1] [5] 0.5).sensitivity) := by
  have hbc : (maskSelect [5] (gtMask [0.1] (0.5 : ℚ))).length = 0 := by
    norm_num [maskSelect, gtMask, List.filterMap_cons]
  have hsc : (maskSelect (List.replicate 200000 (5 : ℚ)) (gtMask ((0.9 : ℚ) :: List.replicate 199999 0) 0.5)).length = 1 := by
    rw [maskSelect_gtMask_length _ _ _
      (by rw [List.length_replicate, List.length_cons, List.length_replicate])]
    unfold specPassCount
    rw [List.filter_cons, List.filter_replicate,
      decide_eq_true (show (0.5 : ℚ) < 0.9 by norm_num),
      decide_eq_false (show ¬((0.5 : ℚ) < 0) by norm_num)]
    rfl
  refine ⟨List.cons_ne_nil _ _, List.mem_cons_self _ _, by norm_num, ?_, ?_⟩
  · simpa only [plot_interactive_cut] using hbc
  · simp only [plot_interactive_cut, hbc, hsc]
    rw [sqrt_epsilon, if_pos (by rw [List.length_replicate]; norm_num)]
    rw [show ((List.replicate 200000 (5 : ℚ)).length : ℚ) = 200000 by
      rw [List.length_replicate]; norm_num]
    push_cast
    norm_num

/-- C10 amended: when no background event passes the threshold, the
sensitivity equals `signal_efficiency × 10^5` (since `sqrt(1e-10) = 1e-5`),
so it is not bounded by 1; the consequence "sensitivity exceeds 1" holds for
signal sets with at least one passing score when the signal set has fewer
than `10^5` events, not for arbitrary non-empty signal sets. -/
theorem sensitivity_scale_amended (signal_probs mass_signal background_probs mass_background : List ℚ) (t : ℚ)
    (hs : mass_signal.length = signal_probs.length)
    (hzero : (plot_interactive_cut signal_probs mass_signal background_probs mass_background t).background_pass_count = 0) :
    (plot_interactive_cut signal_probs mass_signal background_probs mass_background t).sensitivity =
      ((plot_interactive_cut signal_probs mass_signal background_probs mass_background t).signal_efficiency : ℝ) * 100000 ∧
    (signal_probs.length < 100000 → (∃ s ∈ signal_probs, t < s) →
      1 < (plot_interactive_cut signal_probs mass_signal background_probs mass_background t).sensitivity) := by
  simp only [plot_interactive_cut] at hzero ⊢
  have hmain :
      (((if 0 < mass_signal.length then
            ((maskSelect mass_signal (gtMask signal_probs t)).length : ℚ) / mass_signal.length
          else 0) : ℚ) : ℝ) /
          Real.sqrt (((maskSelect mass_background (gtMask background_probs t)).length : ℝ) + 1e-10) =
        (((if 0 < mass_signal.length then
            ((maskSelect mass_signal (gtMask signal_probs t)).length : ℚ) / mass_signal.length
          else 0) : ℚ) : ℝ) * 100000 := by
    rw [hzero]
    rw [sqrt_epsilon]
    rw [div_eq_mul_inv]
    norm_num
  refine ⟨hmain, ?_⟩
  intro hsmall hpass
  obtain ⟨s, hmem, hlt⟩ := hpass
  have hlen0 : 0 < signal_probs.length := List.length_pos.mpr (List.ne_nil_of_mem hmem)
  have hn : 0 < mass_signal.length := hs ▸ hlen0
  have hcnt : (maskSelect mass_signal (gtMask signal_probs t)).length = specPassCount signal_probs t :=
    maskSelect_gtMask_length signal_probs t mass_signal hs
  have hone : 1 ≤ specPassCount signal_probs t := by
    have : s ∈ signal_probs.filter fun x => decide (t < x) :=
      List.mem_filter.mpr ⟨hmem, decide_eq_true hlt⟩
    exact List.length_pos.mpr (List.ne_nil_of_mem this)
  have hnq : (0 : ℚ) < mass_signal.length := by exact_mod_cast hn
  have hcq : (1 : ℚ) ≤ ((maskSelect mass_signal (gtMask signal_probs t)).length : ℚ) := by
    exact_mod_cast hcnt ▸ hone
  have hnlt : ((mass_signal.length : ℚ)) < 100000 := by
    have : mass_signal.length < 100000 := hs ▸ hsmall
    exact_mod_cast this
  have key : (1 / 100000 : ℚ) <
      ((maskSelect mass_signal (gtMask signal_probs t)).length : ℚ) / mass_signal.length :=
    calc (1 / 100000 : ℚ) < 1 / mass_signal.length := by
          rw [div_lt_div_iff₀ (by norm_num) hnq]; linarith
      _ ≤ ((maskSelect mass_signal (gtMask signal_probs t)).length : ℚ) / mass_signal.length :=
          (div_le_div_iff_of_pos_right hnq).mpr hcq
  rw [hmain, if_pos hn]
  have keyR : ((1 / 100000 : ℚ) : ℝ) <
      ((((maskSelect mass_signal (gtMask signal_probs t)).length : ℚ) / (mass_signal.length : ℚ) : ℚ) : ℝ) := by
    exact_mod_cast key
  calc (1 : ℝ) = ((1 / 100000 : ℚ) : ℝ) * 100000 := by norm_num
    _ < _ := by
        apply mul_lt_mul_of_pos_right keyR
        norm_num

/-- Witness for the amended C10: on the example arrays against background
`[0.1]` nothing passes threshold 0.5, the sensitivity is the efficiency
scaled by `10^5`, and it exceeds 1. -/
theorem sensitivity_scale_amended_witness :
    (plot_interactive_cut [0.9, 0.8, 0.4, 0.2] [5, 5, 5, 5] [0.1] [5] 0.5).background_pass_count = 0 ∧
    (plot_interactive_cut [0.9, 0.8, 0.4, 0.2] [5, 5, 5, 5] [0.1] [5] 0.5).sensitivity =
      ((plot_interactive_cut [0.9, 0.8, 0.4, 0.2] [5, 5, 5, 5] [0.1] [5] 0.5).signal_efficiency : ℝ) * 100000 ∧
    (([0.9, 0.8, 0.4, 0.2] : List ℚ).length < 100000 → (∃ s ∈ ([0.9, 0.8, 0.4, 0.2] : List ℚ), (0.5 : ℚ) < s) →
      1 < (plot_interactive_cut [0.9, 0.8, 0.4, 0.2] [5, 5, 5, 5] [0.1] [5] 0.5).sensitivity) := by
  have hzero : (plot_interactive_cut [0.9, 0.8, 0.4, 0.2] [5, 5, 5, 5] [0.1] [5] 0.5).background_pass_count = 0 := by
    norm_num [plot_interactive_cut, maskSelect, gtMask, List.filterMap_cons]
  have h := sensitivity_scale_amended [0.9, 0.8, 0.4, 0.2] [5, 5, 5, 5] [0.1] [5] 0.5 (by decide) hzero
  exact ⟨hzero, h.1, h.2⟩

end MLTutorial
